import Mathlib

/-!
Verification of the conversation-state and prompt-construction pipeline of the
voice persona chat application (src/app.py), as a shallow embedding.

External services (speech-to-text, chat completion, text-to-speech, the
Streamlit secrets store and the process environment) are modelled as inputs:
each fallible provider call is an `Option` result, `none` standing for a raised
exception, and each key-value store is a function `String → Option String`.
-/

namespace DigitalTwin

/-- The role tag of a message, as used in the dicts appended to
`st.session_state.messages`. -/
inductive Role where
  | system
  | user
  | assistant
  deriving Repr, DecidableEq

/-- One message of the conversation log: `{"role": ..., "content": ...}`. -/
structure Turn where
  role : Role
  content : String
  deriving Repr, DecidableEq

/-- The persona document (persona.json) as consumed by the prompt template:
the template reads exactly the keys `name`, `role`, `tone`, `speaking_style`,
`context` and `instructions` via `persona.get(key, default)`, so each is
modelled as optional. -/
structure Persona where
  name : Option String
  role : Option String
  tone : Option String
  speaking_style : Option String
  context : Option String
  instructions : Option (List String)
  deriving Repr, DecidableEq

/-- The system prompt f-string of src/app.py lines 89-197, with
`persona.get(k, default)` rendered as `Option.getD` and
`chr(10).join(...)` as `String.intercalate "\n"`.  The fact sheet enters the
template only through its serialised form `facts_str`
(`json.dumps(facts, indent=2)`), which we take as the input. -/
def system_prompt (persona : Persona) (facts_str : String) : String :=
  "
    You are "
  ++ persona.name.getD "Danish Akhtar"
  ++ ".

    **Identity & Behavior:**
    "
  ++ persona.role.getD "Voice Agent"
  ++ "
    Tone: "
  ++ persona.tone.getD "Professional"
  ++ "
    Speaking Style: "
  ++ persona.speaking_style.getD "Natural"
  ++ "
    Context: "
  ++ persona.context.getD "Interview"
  ++ "

    **Instructions:**
    "
  ++ String.intercalate "\n" (persona.instructions.getD [])
  ++ "

    **Grounded Facts:**
    Use these facts to answer questions. Do not invent contradictory information.
    "
  ++ facts_str
  ++ "

    **PERSONAL REALITY RULE:**

    You only know what is written in the background facts.

    Do not invent travel, hobbies, achievements, habits, or past experiences.

    If a question asks about something not present in the facts,
    respond honestly that you don\x27t have much experience with it.

    Naturalness is more important than completeness.

    Saying \"not much\" is better than guessing.

    Examples:

    Q: Which countries have you visited?
    Bad: I\x27ve been to several countries in Europe and Asia.
    Good: I haven\x27t really traveled widely yet, mostly local experiences.

    Q: Do you play football regularly?
    Bad: I used to play in school.
    Good: Not regularly — only casually sometimes.

    This dramatically reduces hallucinated memories.

    **QUESTION INTERPRETATION:**

    Not every question is an evaluation.

    If the question is casual (hobbies, daily life, preferences, habits, food, movies, routine, personality, sports):
    respond like a normal conversation, not like an interview answer.

    Do not connect it to career or skills unless naturally necessary.
    Short and relaxed answers are preferred.

    These questions test naturalness, not competence.

    Why this works:
    The model already can detect intent — it just needs permission to stop performing.
    Currently it thinks: every response must justify who I am professionally
    We change it to: sometimes just be a person

    **Safety Limiter:**
    Avoid turning casual questions into explanations about productivity, discipline, learning, or growth.
    This specifically prevents the sports-type failure.

    **ANSWER STYLE RULE:**

    Avoid polished or resume-like language.
    Prefer concrete observations over abstract claims.
    Occasionally include small uncertainty or nuance.

    Do not try to sound impressive.
    Sound like thinking out loud, not presenting.

    **FORBIDDEN PHRASES (AI Tone Triggers):**
    - impactful
    - leverage
    - solutions
    - efficient systems
    - enhance
    - skills improvement

    If you feel the urge to use these, stop and rephrase in simple, human words.

    **TOPIC BOUNDARY:**

    Not every answer should relate to AI, systems, learning, or behavior.

    If the question is about daily life, preferences, habits, or casual experiences:
    answer it at face value.

    Do not connect it back to career or deeper meaning unless it naturally belongs there.

    Normal conversation is allowed to be simple.

    **NEGATIVE CONSTRAINT:**

    Avoid forcing philosophical or professional interpretation of casual questions.
    A simple human answer is often the most correct answer.

    **BALANCE RULE:**

    Identity consistency does not mean topic repetition.
    You are a person who works in AI, not a person made of AI.

    **Response Guidelines:**
    - Keep answers concise (suitable for voice).
    - Be conversational.
    - If a fact is missing, admit uncertainty naturally.
    - Stay in character.
    - Avoid markdown formatting in responses (like **bold** or points) as they don\x27t translate well to TTS. Keep it plain text or natural speech patterns.
    "

/-- The log installed by session initialisation (src/app.py line 198):
`[{"role": "system", "content": system_prompt}]`. -/
def initMessages (persona : Persona) (facts_str : String) : List Turn :=
  [{ role := Role.system, content := system_prompt persona facts_str }]

/-- The part of `st.session_state` the init guard inspects: `messages` is
`none` when the key `"messages"` is not yet in the session state. -/
structure ScriptState where
  messages : Option (List Turn)
  deriving Repr, DecidableEq

/-- Session initialisation (src/app.py lines 86-198): installs the one-element
system log only when `"messages" not in st.session_state`. -/
def ensureInit (persona : Persona) (facts_str : String) (s : ScriptState) : ScriptState :=
  match s.messages with
  | some _ => s
  | none => { messages := some (initMessages persona facts_str) }

/-- A persona document with every optional key absent. -/
def emptyPersona : Persona :=
  { name := none, role := none, tone := none, speaking_style := none,
    context := none, instructions := none }

/-- A persona document carrying exactly the template's fallback defaults. -/
def defaultPersona : Persona :=
  { name := some "Danish Akhtar", role := some "Voice Agent",
    tone := some "Professional", speaking_style := some "Natural",
    context := some "Interview", instructions := some [] }

/-! ## Secret resolution and startup validation (src/app.py lines 14-39) -/

/-- `os.getenv(key, default)`: the environment value when the variable is set,
otherwise the supplied default. -/
def os_getenv (env : String → Option String) (key : String)
    (default : Option String) : Option String :=
  match env key with
  | some v => some v
  | none => default

/-- `get_secret` (src/app.py lines 14-23).  The Streamlit secrets store is
`some lookup` when accessible and `none` when touching `st.secrets` raises
(the `except Exception: pass` path); `key in st.secrets` is
`(lookup key).isSome`. -/
def get_secret (store : Option (String → Option String))
    (env : String → Option String) (key : String)
    (default : Option String) : Option String :=
  match store with
  | some secrets =>
      if (secrets key).isSome then secrets key
      else os_getenv env key default
  | none => os_getenv env key default

/-- The two-tier lookup as the claim describes it: the Streamlit secrets value
when the key is present there (the secrets tier silently skipped when the
store is unavailable), otherwise the environment variable of the same name,
otherwise the supplied default. -/
def secretLookupSpec (store : Option (String → Option String))
    (env : String → Option String) (key : String)
    (default : Option String) : Option String :=
  match store with
  | some secrets =>
      match secrets key with
      | some v => some v
      | none =>
          match env key with
          | some v => some v
          | none => default
  | none =>
      match env key with
      | some v => some v
      | none => default

/-- Python truthiness of an optional string credential: `not value` holds for
both an unset key (`None`) and an empty string. -/
def falsy (v : Option String) : Bool :=
  match v with
  | none => true
  | some s => s == ""

/-- The `missing` list (src/app.py lines 32-35): built by three conditional
appends, in source order, over the three validated keys.  `OPENAI_BASE_URL`
is read at line 28 but never validated. -/
def missingKeys (openai_api_key elevenlabs_api_key groq_api_key : Option String) :
    List String :=
  (if falsy openai_api_key then ["OPENAI_API_KEY"] else [])
  ++ (if falsy elevenlabs_api_key then ["ELEVENLABS_API_KEY"] else [])
  ++ (if falsy groq_api_key then ["GROQ_API_KEY"] else [])

/-- Outcome of the startup validation: whether `st.stop()` was reached and the
`st.error` banner text, if any. -/
structure StartupResult where
  halted : Bool
  message : Option String
  deriving Repr, DecidableEq

/-- Startup (src/app.py lines 26-39): read the four keys with `get_secret`,
collect `missing`, and on a non-empty list show
`f"Missing API keys: {', '.join(missing)}"` and halt. -/
def startup (store : Option (String → Option String))
    (env : String → Option String) : StartupResult :=
  let openai_api_key := get_secret store env "OPENAI_API_KEY" none
  let elevenlabs_api_key := get_secret store env "ELEVENLABS_API_KEY" none
  let groq_api_key := get_secret store env "GROQ_API_KEY" none
  let missing := missingKeys openai_api_key elevenlabs_api_key groq_api_key
  if missing.isEmpty then
    { halted := false, message := none }
  else
    { halted := true,
      message := some ("Missing API keys: " ++ String.intercalate ", " missing) }

/-! ## The turn pipeline (src/app.py lines 636-706) -/

/-- ASCII whitespace as stripped by Python's `str.strip()` (space, tab,
newline, carriage return, vertical tab, form feed; Python additionally strips
some Unicode space characters, not relevant here). -/
def isPySpace (c : Char) : Bool :=
  c == ' ' || c == '\t' || c == '\n' || c == '\r' || c == '\x0b' || c == '\x0c'

/-- Truthiness of the guard `if user_text and user_text.strip():` is the
negation of this: `user_text.strip()` is falsy exactly when every character
of `user_text` is whitespace (the empty string included, which also makes
`user_text` itself falsy). -/
def isBlank (s : String) : Bool :=
  s.data.all isPySpace

/-- The outcomes of the three external calls made during one pipeline run.
`none` models the call raising an exception; transcription also folds in the
`transcription.text` extraction, completion the
`response.choices[0].message.content` extraction, and synthesis the
consumption of the streamed chunks into one byte string. -/
structure RunInput where
  transcription : Option String
  completion : Option String
  synthesis : Option (List Nat)
  deriving Repr, DecidableEq

/-- The session-state fields the pipeline reads or writes. -/
structure SessionState where
  messages : List Turn
  input_key : Nat
  current_audio : Option (List Nat)
  scroll_after_message : Bool
  deriving Repr, DecidableEq

/-- Which `st.error` banner a run surfaced: `audioProcessingFailed` is the
`f"Audio processing failed: {e}"` site (line 664), `errorBanner` the
`f"Error: {e}"` site (line 706). -/
inductive ErrorNotice where
  | audioProcessingFailed
  | errorBanner
  deriving Repr, DecidableEq

/-- Everything observable about one pipeline run: the resulting session state,
the surfaced error banner (if any), whether the completion and synthesis
calls were made, whether the temporary audio file was removed, and whether
`st.rerun()` was reached. -/
structure RunResult where
  state : SessionState
  surfacedError : Option ErrorNotice
  completionCalled : Bool
  synthesisCalled : Bool
  tempFileDeleted : Bool
  reran : Bool
  deriving Repr, DecidableEq

/-- One pipeline run on a submitted audio clip (src/app.py lines 636-706).

The temporary file is created before the transcription call; `os.remove`
(line 661) runs inside the `try`, after a successful transcription, so a
raising transcription skips it.  The guard is
`if user_text and user_text.strip():` — both the raising path (`user_text =
None`) and an empty/whitespace transcription skip the whole block.  The user
turn is appended before the completion call and the assistant turn before the
synthesis call; one `except` block covers both calls. -/
def runPipeline (s : SessionState) (inp : RunInput) : RunResult :=
  match inp.transcription with
  | none =>
      { state := s, surfacedError := some ErrorNotice.audioProcessingFailed,
        completionCalled := false, synthesisCalled := false,
        tempFileDeleted := false, reran := false }
  | some user_text =>
      if isBlank user_text then
        { state := s, surfacedError := none,
          completionCalled := false, synthesisCalled := false,
          tempFileDeleted := true, reran := false }
      else
        let s1 := { s with messages := s.messages ++ [{ role := Role.user, content := user_text }] }
        match inp.completion with
        | none =>
            { state := s1, surfacedError := some ErrorNotice.errorBanner,
              completionCalled := true, synthesisCalled := false,
              tempFileDeleted := true, reran := false }
        | some bot_text =>
            let s2 := { s1 with
              messages := s1.messages ++ [{ role := Role.assistant, content := bot_text }],
              scroll_after_message := true }
            match inp.synthesis with
            | none =>
                { state := s2, surfacedError := some ErrorNotice.errorBanner,
                  completionCalled := true, synthesisCalled := true,
                  tempFileDeleted := true, reran := false }
            | some audio_bytes =>
                { state := { s2 with
                    current_audio := some audio_bytes,
                    input_key := s2.input_key + 1 },
                  surfacedError := none,
                  completionCalled := true, synthesisCalled := true,
                  tempFileDeleted := true, reran := true }

/-- The session state right after initialisation. -/
def initialState (persona : Persona) (facts_str : String) : SessionState :=
  { messages := initMessages persona facts_str, input_key := 0,
    current_audio := none, scroll_after_message := false }

/-- The session states reachable from initialisation by pipeline runs. -/
inductive Reachable (persona : Persona) (facts_str : String) : SessionState → Prop where
  | init : Reachable persona facts_str (initialState persona facts_str)
  | step : ∀ s inp, Reachable persona facts_str s →
      Reachable persona facts_str (runPipeline s inp).state

/-! ## The conversation-log invariant -/

/-- Strict user/assistant alternation of a role sequence, starting with a
user role when `expectUser` is `true`. -/
def altUA : Bool → List Role → Bool
  | _, [] => true
  | expectUser, r :: rest =>
      (if expectUser then r == Role.user else r == Role.assistant) && altUA (!expectUser) rest

/-- The spec's log invariant: the first Turn has role system and all
subsequent Turns alternate user/assistant. -/
def logInvariant (log : List Turn) : Bool :=
  match log with
  | [] => false
  | t :: rest => t.role == Role.system && altUA true (rest.map Turn.role)

/-- The turns contributed by a list of completed (user, assistant) exchanges. -/
def pairsFlatten : List (String × String) → List Turn
  | [] => []
  | (u, a) :: rest =>
      { role := Role.user, content := u }
        :: { role := Role.assistant, content := a } :: pairsFlatten rest

/-- A run input that cannot leave an unpaired user turn: whenever the
transcription succeeds with non-blank text (so a user turn is appended), the
completion call succeeds as well. -/
def goodInput (inp : RunInput) : Bool :=
  match inp.transcription with
  | none => true
  | some t => isBlank t || inp.completion.isSome

/-- Session states reachable by runs none of which hits a completion failure
after appending a user turn. -/
inductive ReachableSafe (persona : Persona) (facts_str : String) : SessionState → Prop where
  | init : ReachableSafe persona facts_str (initialState persona facts_str)
  | step : ∀ s inp, goodInput inp = true → ReachableSafe persona facts_str s →
      ReachableSafe persona facts_str (runPipeline s inp).state

/-- A run input that appends a full user/assistant pair: transcription yields
non-blank text and the completion call succeeds. -/
def appendsPair (inp : RunInput) : Bool :=
  (match inp.transcription with
   | none => false
   | some t => !(isBlank t)) && inp.completion.isSome

/-- Run the pipeline over a list of submissions in order. -/
def runAll (s : SessionState) : List RunInput → SessionState
  | [] => s
  | inp :: rest => runAll (runPipeline s inp).state rest

/-! ## Concrete data for witnesses and counterexamples -/

/-- A serialised empty fact sheet (`json.dumps({}, indent=2)`). -/
def demoFacts : String := "\x7b\x7d"

/-- The session state right after initialisation, with an all-default persona. -/
def demoState : SessionState := initialState emptyPersona demoFacts

/-- A run whose transcription succeeds with non-blank text but whose
completion call raises. -/
def completionFailRun : RunInput :=
  { transcription := some "hi", completion := none, synthesis := none }

/-- A run in which all three external calls succeed. -/
def successRun : RunInput :=
  { transcription := some "hi", completion := some "hello there",
    synthesis := some [1, 2, 3] }

/-- A run whose synthesis call raises after a successful completion. -/
def synthFailRun : RunInput :=
  { transcription := some "hi", completion := some "hello there", synthesis := none }

/-- A run whose transcription call raises. -/
def transcriptionFailRun : RunInput :=
  { transcription := none, completion := none, synthesis := none }

/-- A run whose transcription succeeds with whitespace-only text. -/
def blankRun : RunInput :=
  { transcription := some "   ", completion := none, synthesis := none }

/-- An environment holding the three validated keys and nothing else —
in particular no `OPENAI_BASE_URL`. -/
def envThreeKeys : String → Option String := fun k =>
  if k == "OPENAI_API_KEY" || k == "ELEVENLABS_API_KEY" || k == "GROQ_API_KEY" then
    some "sk-demo"
  else none

/-- An empty environment. -/
def envEmpty : String → Option String := fun _ => none

lemma pairsFlatten_append (ps : List (String × String)) (u a : String) :
    pairsFlatten (ps ++ [(u, a)])
      = pairsFlatten ps
        ++ [{ role := Role.user, content := u }, { role := Role.assistant, content := a }] := by
  induction ps with
  | nil => rfl
  | cons p rest ih =>
      obtain ⟨pu, pa⟩ := p
      simp [pairsFlatten, ih]

lemma altUA_pairsFlatten (ps : List (String × String)) :
    altUA true ((pairsFlatten ps).map Turn.role) = true := by
  induction ps with
  | nil => rfl
  | cons p rest ih =>
      obtain ⟨pu, pa⟩ := p
      simpa [pairsFlatten, altUA] using ih

/-- Trichotomy of one run's effect on the message log: unchanged, one user
turn appended, or a user/assistant pair appended. -/
lemma runPipeline_messages_cases (s : SessionState) (inp : RunInput) :
    (runPipeline s inp).state.messages = s.messages ∨
    (∃ t, inp.transcription = some t ∧ isBlank t = false ∧ inp.completion = none ∧
      (runPipeline s inp).state.messages
        = s.messages ++ [{ role := Role.user, content := t }]) ∨
    (∃ t b, inp.transcription = some t ∧ isBlank t = false ∧ inp.completion = some b ∧
      (runPipeline s inp).state.messages
        = s.messages ++ [{ role := Role.user, content := t },
                         { role := Role.assistant, content := b }]) := by
  cases ht : inp.transcription with
  | none => exact Or.inl (by simp [runPipeline, ht])
  | some t =>
      cases he : isBlank t with
      | true => exact Or.inl (by simp [runPipeline, ht, he])
      | false =>
          cases hc : inp.completion with
          | none =>
              exact Or.inr (Or.inl ⟨t, rfl, he, rfl, by simp [runPipeline, ht, he, hc]⟩)
          | some b =>
              refine Or.inr (Or.inr ⟨t, b, rfl, he, rfl, ?_⟩)
              cases hs : inp.synthesis <;> simp [runPipeline, ht, he, hc, hs]

/-- Every safely reachable state is the initial log extended by completed
user/assistant pairs. -/
lemma reachableSafe_shape (persona : Persona) (facts_str : String) (s : SessionState)
    (h : ReachableSafe persona facts_str s) :
    ∃ ps, s.messages = initMessages persona facts_str ++ pairsFlatten ps := by
  induction h with
  | init => exact ⟨[], by simp [initialState, pairsFlatten]⟩
  | step s inp hg _ ih =>
      obtain ⟨ps, hps⟩ := ih
      rcases runPipeline_messages_cases s inp with hcase | ⟨t, ht, he, hc, hcase⟩ |
        ⟨t, b, ht, he, hc, hcase⟩
      · exact ⟨ps, by rw [hcase, hps]⟩
      · exfalso
        simp [goodInput, ht, he, hc] at hg
      · refine ⟨ps ++ [(t, b)], ?_⟩
        rw [hcase, hps, pairsFlatten_append, List.append_assoc]

/-- A pair-appending run grows the log by exactly the pair. -/
lemma runPipeline_appendsPair (s : SessionState) (inp : RunInput)
    (h : appendsPair inp = true) :
    ∃ t b, (runPipeline s inp).state.messages
      = s.messages ++ [{ role := Role.user, content := t },
                       { role := Role.assistant, content := b }] := by
  cases ht : inp.transcription with
  | none => simp [appendsPair, ht] at h
  | some t =>
      cases he : isBlank t with
      | true => simp [appendsPair, ht, he] at h
      | false =>
          cases hc : inp.completion with
          | none => simp [appendsPair, ht, hc] at h
          | some b =>
              refine ⟨t, b, ?_⟩
              cases hs : inp.synthesis <;> simp [runPipeline, ht, he, hc, hs]

lemma runAll_length (inps : List RunInput) :
    ∀ s : SessionState, (∀ inp ∈ inps, appendsPair inp = true) →
      (runAll s inps).messages.length = s.messages.length + 2 * inps.length := by
  induction inps with
  | nil => intro s _; simp [runAll]
  | cons inp rest ih =>
      intro s hall
      obtain ⟨t, b, hmsg⟩ := runPipeline_appendsPair s inp (hall inp (by simp))
      have hrest := ih (runPipeline s inp).state (fun i hi => hall i (by simp [hi]))
      rw [runAll, hrest, hmsg]
      simp
      ring

/-! ## Claim theorems -/

/-- C1 (counterexample): the alternation invariant fails on a reachable log.
Two runs whose completion call fails each leave an unpaired user turn, so the
log `[system, user, user]` is reachable and violates user/assistant
alternation. -/
theorem consecutive_user_turns_reachable :
    Reachable emptyPersona demoFacts
      (runPipeline (runPipeline (initialState emptyPersona demoFacts)
        completionFailRun).state completionFailRun).state ∧
    logInvariant (runPipeline (runPipeline (initialState emptyPersona demoFacts)
        completionFailRun).state completionFailRun).state.messages = false :=
  ⟨Reachable.step _ _ (Reachable.step _ _ Reachable.init), by decide⟩

/-- C1 (amended): in every reachable log the first turn is system and each run
only appends (so length grows monotonically); N pair-appending runs from the
initial log give length 1 + 2N; and user/assistant alternation holds for every
log reachable by runs in which no completion call fails after a user turn was
appended. -/
theorem conversation_log_structure (persona : Persona) (facts_str : String) :
    (∀ s, ReachableSafe persona facts_str s → logInvariant s.messages = true) ∧
    (∀ (s : SessionState) (inp : RunInput), ∃ tail,
        (runPipeline s inp).state.messages = s.messages ++ tail) ∧
    (∀ inps : List RunInput, (∀ inp ∈ inps, appendsPair inp = true) →
        (runAll (initialState persona facts_str) inps).messages.length
          = 1 + 2 * inps.length) := by
  refine ⟨?_, ?_, ?_⟩
  · intro s hs
    obtain ⟨ps, hps⟩ := reachableSafe_shape persona facts_str s hs
    rw [hps]
    simp [initMessages, logInvariant, altUA_pairsFlatten]
  · intro s inp
    rcases runPipeline_messages_cases s inp with h | ⟨t, _, _, _, h⟩ | ⟨t, b, _, _, _, h⟩
    · exact ⟨[], by simp [h]⟩
    · exact ⟨_, h⟩
    · exact ⟨_, h⟩
  · intro inps hall
    rw [runAll_length inps (initialState persona facts_str) hall]
    simp [initialState, initMessages]

/-- Witness for C1 (amended): a concrete safely-reachable state satisfies the
invariant, and two pair-appending runs give log length 1 + 2·2. -/
theorem conversation_log_structure_witness :
    logInvariant (runPipeline (initialState emptyPersona demoFacts)
        successRun).state.messages = true ∧
    (runAll (initialState emptyPersona demoFacts)
        [successRun, successRun]).messages.length = 1 + 2 * 2 := by
  constructor
  · exact (conversation_log_structure emptyPersona demoFacts).1 _
      (ReachableSafe.step _ _ (by decide) ReachableSafe.init)
  · exact (conversation_log_structure emptyPersona demoFacts).2.2
      [successRun, successRun] (by decide)

/-- C2: when the completion call fails after a non-blank transcription, the
appended user turn remains in the log, no assistant turn is appended, and the
error banner is surfaced (the pipeline function still returns, so the session
continues). -/
theorem completion_failure_keeps_user_turn (s : SessionState) (inp : RunInput)
    (t : String) (ht : inp.transcription = some t)
    (hne : isBlank t = false) (hc : inp.completion = none) :
    (runPipeline s inp).state.messages
      = s.messages ++ [{ role := Role.user, content := t }] ∧
    (runPipeline s inp).surfacedError = some ErrorNotice.errorBanner := by
  simp [runPipeline, ht, hne, hc]

/-- Witness for C2 at a concrete run. -/
theorem completion_failure_keeps_user_turn_witness :
    completionFailRun.transcription = some "hi" ∧ isBlank "hi" = false ∧
    completionFailRun.completion = none ∧
    ((runPipeline demoState completionFailRun).state.messages
        = demoState.messages ++ [{ role := Role.user, content := "hi" }] ∧
      (runPipeline demoState completionFailRun).surfacedError
        = some ErrorNotice.errorBanner) :=
  ⟨rfl, by decide, rfl,
    completion_failure_keeps_user_turn demoState completionFailRun "hi" rfl (by decide) rfl⟩

/-- C3: when the synthesis call fails after a successful completion, both the
user turn and the assistant turn remain in the log and `current_audio` is not
written, so no audio is produced. -/
theorem synthesis_failure_keeps_both_turns (s : SessionState) (inp : RunInput)
    (t b : String) (ht : inp.transcription = some t)
    (hne : isBlank t = false) (hc : inp.completion = some b)
    (hs : inp.synthesis = none) :
    (runPipeline s inp).state.messages
      = s.messages ++ [{ role := Role.user, content := t },
                       { role := Role.assistant, content := b }] ∧
    (runPipeline s inp).state.current_audio = s.current_audio := by
  simp [runPipeline, ht, hne, hc, hs]

/-- Witness for C3 at a concrete run. -/
theorem synthesis_failure_keeps_both_turns_witness :
    synthFailRun.transcription = some "hi" ∧ isBlank "hi" = false ∧
    synthFailRun.completion = some "hello there" ∧ synthFailRun.synthesis = none ∧
    ((runPipeline demoState synthFailRun).state.messages
        = demoState.messages ++ [{ role := Role.user, content := "hi" },
                                 { role := Role.assistant, content := "hello there" }] ∧
      (runPipeline demoState synthFailRun).state.current_audio
        = demoState.current_audio) :=
  ⟨rfl, by decide, rfl, rfl,
    synthesis_failure_keeps_both_turns demoState synthFailRun "hi" "hello there"
      rfl (by decide) rfl rfl⟩

/-- C4: when the transcription call fails, the whole session state — in
particular the log — is unchanged, the `Audio processing failed` notice is
surfaced, and the completion call is never made. -/
theorem transcription_failure_no_mutation (s : SessionState) (inp : RunInput)
    (h : inp.transcription = none) :
    (runPipeline s inp).state = s ∧
    (runPipeline s inp).surfacedError = some ErrorNotice.audioProcessingFailed ∧
    (runPipeline s inp).completionCalled = false := by
  simp [runPipeline, h]

/-- Witness for C4 at a concrete run. -/
theorem transcription_failure_no_mutation_witness :
    transcriptionFailRun.transcription = none ∧
    ((runPipeline demoState transcriptionFailRun).state = demoState ∧
      (runPipeline demoState transcriptionFailRun).surfacedError
        = some ErrorNotice.audioProcessingFailed ∧
      (runPipeline demoState transcriptionFailRun).completionCalled = false) :=
  ⟨rfl, transcription_failure_no_mutation demoState transcriptionFailRun rfl⟩

/-- C5: a whitespace-only transcription is a silent no-op: the session state
is unchanged, no error is surfaced, and neither the completion nor the
synthesis call is made. -/
theorem empty_transcription_silent_noop (s : SessionState) (inp : RunInput)
    (t : String) (ht : inp.transcription = some t)
    (he : isBlank t = true) :
    (runPipeline s inp).state = s ∧
    (runPipeline s inp).surfacedError = none ∧
    (runPipeline s inp).completionCalled = false ∧
    (runPipeline s inp).synthesisCalled = false := by
  simp [runPipeline, ht, he]

/-- Witness for C5 at a concrete whitespace-only run. -/
theorem empty_transcription_silent_noop_witness :
    blankRun.transcription = some "   " ∧ isBlank "   " = true ∧
    ((runPipeline demoState blankRun).state = demoState ∧
      (runPipeline demoState blankRun).surfacedError = none ∧
      (runPipeline demoState blankRun).completionCalled = false ∧
      (runPipeline demoState blankRun).synthesisCalled = false) :=
  ⟨rfl, by decide,
    empty_transcription_silent_noop demoState blankRun "   " rfl (by decide)⟩

/-- C6 (counterexample): with the three validated keys present but
`OPENAI_BASE_URL` absent, startup does not halt — so the absence of one of
the four read credentials is not a fatal startup condition. -/
theorem base_url_missing_no_halt :
    get_secret none envThreeKeys "OPENAI_BASE_URL" none = none ∧
    (startup none envThreeKeys).halted = false ∧
    (startup none envThreeKeys).message = none := by decide

/-- C6 (amended): startup reads four configuration values but requires only
three credentials; it halts exactly when one of OPENAI_API_KEY,
ELEVENLABS_API_KEY, GROQ_API_KEY resolves to nothing (or an empty string),
and the banner lists exactly the missing ones among these three. -/
theorem startup_requires_three_keys (store : Option (String → Option String))
    (env : String → Option String) :
    ((startup store env).halted = true ↔
      missingKeys (get_secret store env "OPENAI_API_KEY" none)
        (get_secret store env "ELEVENLABS_API_KEY" none)
        (get_secret store env "GROQ_API_KEY" none) ≠ []) ∧
    ((startup store env).halted = true →
      (startup store env).message
        = some ("Missing API keys: " ++ String.intercalate ", "
            (missingKeys (get_secret store env "OPENAI_API_KEY" none)
              (get_secret store env "ELEVENLABS_API_KEY" none)
              (get_secret store env "GROQ_API_KEY" none)))) ∧
    (∀ o e g k, k ∈ missingKeys o e g ↔
      ((k = "OPENAI_API_KEY" ∧ falsy o = true) ∨
       (k = "ELEVENLABS_API_KEY" ∧ falsy e = true) ∨
       (k = "GROQ_API_KEY" ∧ falsy g = true))) := by
  refine ⟨?_, ?_, ?_⟩
  · rw [startup]
    split
    · next hempty =>
        simp only [List.isEmpty_iff] at hempty
        simp [hempty]
    · next hempty =>
        simp only [List.isEmpty_iff] at hempty
        simp [hempty]
  · intro hhalt
    rw [startup] at hhalt ⊢
    split at hhalt
    · exact absurd hhalt (by simp)
    · next hempty => simp [hempty]
  · intro o e g k
    rw [missingKeys]
    cases hfo : falsy o <;> cases hfe : falsy e <;> cases hfg : falsy g <;>
      simp [hfo, hfe, hfg]

/-- Witness for C6 (amended): with an empty environment startup halts, the
banner lists all three required keys, and GROQ_API_KEY is among the missing
keys. -/
theorem startup_requires_three_keys_witness :
    (startup none envEmpty).halted = true ∧
    (startup none envEmpty).message
      = some "Missing API keys: OPENAI_API_KEY, ELEVENLABS_API_KEY, GROQ_API_KEY" ∧
    "GROQ_API_KEY" ∈ missingKeys none none none := by
  refine ⟨?_, ?_, ?_⟩
  · exact (startup_requires_three_keys none envEmpty).1.mpr (by decide)
  · exact ((startup_requires_three_keys none envEmpty).2.1
      ((startup_requires_three_keys none envEmpty).1.mpr (by decide))).trans (by decide)
  · exact ((startup_requires_three_keys none envEmpty).2.2
      none none none "GROQ_API_KEY").mpr (by decide)

/-- C7 (counterexample): on a run whose transcription call raises, the
temporary audio file is not removed — `os.remove` sits inside the `try`,
after the transcription call. -/
theorem temp_file_kept_on_transcription_failure :
    (runPipeline demoState transcriptionFailRun).tempFileDeleted = false := by decide

/-- C7 (amended): the temporary audio file is removed exactly when the
transcription call succeeds — in particular also on the blank-transcription,
completion-failure and synthesis-failure paths — and is left behind when the
transcription call raises. -/
theorem temp_file_deleted_iff_transcription_ok (s : SessionState) (inp : RunInput) :
    (runPipeline s inp).tempFileDeleted = inp.transcription.isSome := by
  cases ht : inp.transcription with
  | none => simp [runPipeline, ht]
  | some t =>
      cases he : isBlank t with
      | true => simp [runPipeline, ht, he]
      | false =>
          cases hc : inp.completion with
          | none => simp [runPipeline, ht, he, hc]
          | some b => cases hs : inp.synthesis <;> simp [runPipeline, ht, he, hc, hs]

/-- C8: prompt building is a pure, deterministic, total function of the
persona and the serialised fact sheet — identical inputs give identical
strings — and a persona with every optional field absent yields byte-for-byte
the same prompt as one carrying the template's default name, role, tone,
speaking style, context and instruction list. -/
theorem system_prompt_deterministic_total_defaults :
    (∀ (p : Persona) (f : String), system_prompt p f = system_prompt p f) ∧
    (∀ f : String, system_prompt emptyPersona f = system_prompt defaultPersona f) :=
  ⟨fun _ _ => rfl, fun _ => rfl⟩

/-- C9: session initialisation yields a log of length exactly 1 whose single
turn has role system and content equal to the built system prompt, and the
`"messages" not in st.session_state` guard makes it run exactly once: it is
idempotent and never overwrites an existing log. -/
theorem init_single_system_turn :
    (∀ (p : Persona) (f : String), (initMessages p f).length = 1) ∧
    (∀ (p : Persona) (f : String), (initMessages p f).map Turn.role = [Role.system]) ∧
    (∀ (p : Persona) (f : String),
        (initMessages p f).map Turn.content = [system_prompt p f]) ∧
    (∀ (p : Persona) (f : String) (s : ScriptState),
        ensureInit p f (ensureInit p f s) = ensureInit p f s) ∧
    (∀ (p : Persona) (f : String) (log : List Turn),
        ensureInit p f { messages := some log } = { messages := some log }) := by
  refine ⟨fun _ _ => rfl, fun _ _ => rfl, fun _ _ => rfl, ?_, fun _ _ _ => rfl⟩
  intro p f s
  cases s with
  | mk m => cases m <;> rfl

/-- C10: `get_secret` is exactly the two-tier lookup the claim describes —
Streamlit secrets value when present (tier silently skipped when the store is
unavailable), else the environment variable, else the supplied default — and,
being a total function, it never raises. -/
theorem get_secret_two_tier (store : Option (String → Option String))
    (env : String → Option String) (key : String) (default : Option String) :
    get_secret store env key default = secretLookupSpec store env key default := by
  cases store with
  | none =>
      cases h : env key <;> simp [get_secret, secretLookupSpec, os_getenv, h]
  | some secrets =>
      cases h : secrets key <;> cases he : env key <;>
        simp [get_secret, secretLookupSpec, os_getenv, h, he]

end DigitalTwin
